import Mathlib

/-!
# Verification of the `render_vector` binding surface

Shallow embedding of `src/src/render_vector.cpp`, the Rcpp binding layer of the
repository.  The binding exports three functions:

* `create_render_vector(Rcpp::NumericVector data)` — returns
  `Rcpp::XPtr<RenderVector>(new RenderVector(data), true)`;
* `render_vector_update(Rcpp::XPtr<RenderVector> v, size_t index, float value)` —
  calls `v->update(index, value)` and returns `void`;
* `render_vector_data(Rcpp::XPtr<RenderVector> v)` — returns `v->data()` as an
  `Rcpp::NumericVector`.

The `RenderVector` class itself (`inst/include/RenderVector.h`) is not among the
provided sources, so it is modelled from the specification.  Double-precision
values carry no arithmetic in any of the operations (they are only stored,
overwritten and copied out), so they are modelled by `ℚ`: every finite IEEE-754
double is an exact rational, and none of the verified properties depends on
rounding.  The `float value` parameter of the update binding is likewise
modelled by the exact rational value of the 32-bit float that the binding
receives (widening a `float` to a `double` is exact).

Two layers are embedded:

* a value layer (`RenderVector`, `create_render_vector`, `render_vector_update`,
  `render_vector_data`) in which the external pointer is identified with the
  owned object, mutation becoming explicit state passing; and
* a heap layer (`Heap`, `XPtr`, `create_render_vector_st`,
  `render_vector_update_st`, `render_vector_data_st`) that models
  `Rcpp::XPtr` allocation explicitly: the R-side heap is the list of all
  objects allocated so far, an external pointer is an address into it, and
  `new` returns a fresh address.  This layer is needed for the claims about
  ownership, freshness and independence of handles.
-/

/-- Modelled from the spec: the `RenderVector` class of
`inst/include/RenderVector.h`, which is not included in the provided sources.
Per the specification (§3) it is a numeric vector container constructed from a
sequence of floating-point values; its contents are a sequence of
double-precision numbers, modelled as `List ℚ`. -/
structure RenderVector where
  values : List ℚ
deriving DecidableEq, Repr

/-- Modelled from the spec: the constructor `RenderVector(data)` — the
container is "constructed from a sequence of floating-point values" (spec §3),
i.e. it is initialized from the host-supplied data. -/
def RenderVector.ofData (data : List ℚ) : RenderVector :=
  ⟨data⟩

/-- Modelled from the spec: `RenderVector::update(index, value)` — "in-place
update of a single element, addressed by a non-negative integer index"
(spec §3).  Out-of-range behaviour is left unspecified by the spec; `List.set`
is used as the underlying total function, and every theorem about an update
that must land on an element carries an in-bounds hypothesis. -/
def RenderVector.update (v : RenderVector) (index : ℕ) (value : ℚ) : RenderVector :=
  ⟨v.values.set index value⟩

/-- Modelled from the spec: `RenderVector::data()` — "a full copy of its
contents as a sequence of double-precision values" (spec §3). -/
def RenderVector.data (v : RenderVector) : List ℚ :=
  v.values

/-! ## The binding layer, value level (from `src/src/render_vector.cpp`)

At this level the `XPtr` indirection is erased: the handle is the owned
object, and mutation is explicit state passing. -/

/-- `create_render_vector` (render_vector.cpp lines 14–16): constructs a new
`RenderVector` from the host data.  The `XPtr` wrapping is modelled at the heap
level by `create_render_vector_st`. -/
def create_render_vector (data : List ℚ) : RenderVector :=
  RenderVector.ofData data

/-- `render_vector_update` (render_vector.cpp lines 19–21): delegates directly
to `v->update(index, value)`, with no bounds check, no validation and no error
branch; the C++ function returns `void`, so the updated state is the only
result. -/
def render_vector_update (v : RenderVector) (index : ℕ) (value : ℚ) : RenderVector :=
  v.update index value

/-- `render_vector_data` (render_vector.cpp lines 24–26): returns `v->data()`,
a full copy of the contents. -/
def render_vector_data (v : RenderVector) : List ℚ :=
  v.data

/-! ## The binding layer, heap level

`Rcpp::XPtr<RenderVector>` is a pointer into the R-side heap.  The heap is
modelled as the list of all `RenderVector` objects allocated so far; an
address is a position in that list, and allocation appends. -/

/-- An external pointer: an address into the heap, together with the
finalizer flag that `Rcpp::XPtr`'s constructor receives (`true` in the source:
delete the owned object when the R handle is garbage collected). -/
structure XPtr where
  addr : ℕ
  deleteOnFinalize : Bool
deriving DecidableEq, Repr

/-- The R-side heap: all `RenderVector` objects allocated so far, addressed by
position. -/
structure Heap where
  objects : List RenderVector
deriving DecidableEq, Repr

/-- Dereference an external pointer: `none` means the address was never
allocated (an invalid handle). -/
def Heap.deref (h : Heap) (p : XPtr) : Option RenderVector :=
  h.objects[p.addr]?

/-- `create_render_vector` at the heap level:
`Rcpp::XPtr<RenderVector>(new RenderVector(data), true)`.  `new` yields a
fresh address (the next unallocated position) and the `XPtr` is constructed
with the delete-on-finalization flag set to `true`. -/
def create_render_vector_st (h : Heap) (data : List ℚ) : XPtr × Heap :=
  (⟨h.objects.length, true⟩, ⟨h.objects ++ [RenderVector.ofData data]⟩)

/-- `render_vector_update` at the heap level: `v->update(index, value)` applied
through the pointer.  The source performs no validation whatsoever; the `match`
below is only the totalisation of pointer dereference required by the shallow
embedding (dereferencing an invalid pointer is undefined behaviour in the
source, modelled as leaving the heap unchanged), not a check present in the
code. -/
def render_vector_update_st (h : Heap) (p : XPtr) (index : ℕ) (value : ℚ) : Heap :=
  match h.objects[p.addr]? with
  | some v => ⟨h.objects.set p.addr (v.update index value)⟩
  | none => h

/-- `render_vector_data` at the heap level: `return v->data()`.  `data()` is a
read that copies the contents out; the heap is returned unchanged alongside the
result to make the absence of mutation explicit. -/
def render_vector_data_st (h : Heap) (p : XPtr) : Option (List ℚ) × Heap :=
  ((h.deref p).map RenderVector.data, h)

/-! ## Claims -/

/-- C1: Round-trip identity — constructing a vector from any input sequence and
reading it back with no intervening update returns the input sequence; in
particular, constructing with `[1.0, 2.0, 3.0]` reads back `[1.0, 2.0, 3.0]`. -/
theorem c1_round_trip :
    (∀ data : List ℚ, render_vector_data (create_render_vector data) = data) ∧
    render_vector_data (create_render_vector [1, 2, 3]) = [1, 2, 3] :=
  ⟨fun _ => rfl, rfl⟩

/-- C2: Frame property of update — for an in-bounds index `i`, the update
binding sets the element at `i` to the supplied value and leaves the element at
every other index `j` unchanged.  The C++ binding returns `void`, so the
updated state is its only effect. -/
theorem c2_update_frame (v : RenderVector) (i j : ℕ) (x : ℚ)
    (hi : i < v.values.length) (hj : j ≠ i) :
    (render_vector_data (render_vector_update v i x))[i]? = some x ∧
    (render_vector_data (render_vector_update v i x))[j]? = (render_vector_data v)[j]? := by
  unfold render_vector_data render_vector_update RenderVector.update RenderVector.data
  exact ⟨List.getElem?_set_self hi, List.getElem?_set_ne (Ne.symm hj)⟩

/-- Witness for C2 at `v = [1, 2, 3]`, `i = 1`, `j = 2`, `x = 5`. -/
theorem c2_update_frame_witness :
    (1 < (RenderVector.ofData [1, 2, 3]).values.length ∧ (2 : ℕ) ≠ 1) ∧
    ((render_vector_data (render_vector_update (RenderVector.ofData [1, 2, 3]) 1 5))[1]? = some 5 ∧
     (render_vector_data (render_vector_update (RenderVector.ofData [1, 2, 3]) 1 5))[2]? =
       (render_vector_data (RenderVector.ofData [1, 2, 3]))[2]?) :=
  ⟨⟨by decide, by decide⟩,
   c2_update_frame (RenderVector.ofData [1, 2, 3]) 1 2 5 (by decide) (by decide)⟩

/-- C3: Concrete update scenario — construct with `[1.0, 2.0, 3.0]`, update
index `1` to `5.0`, read back: the result is `[1.0, 5.0, 3.0]`. -/
theorem c3_concrete_update :
    render_vector_data
      (render_vector_update (create_render_vector [1, 2, 3]) 1 5) = [1, 5, 3] := by
  decide

/-- C4: Empty-input case — constructing from the empty sequence reads back the
empty sequence. -/
theorem c4_empty :
    render_vector_data (create_render_vector []) = [] :=
  rfl

/-- C5: Read is idempotent and non-mutating — at the heap level, reading
through a handle leaves the heap unchanged, and reading again from the
resulting heap returns the same sequence. -/
theorem c5_read_idempotent (h : Heap) (p : XPtr) :
    (render_vector_data_st h p).2 = h ∧
    (render_vector_data_st (render_vector_data_st h p).2 p).1 =
      (render_vector_data_st h p).1 :=
  ⟨rfl, rfl⟩

/-- C7: Absence of error handling — the update binding delegates directly to
the underlying object's update for every index (including out-of-range ones,
e.g. index `10` on a three-element vector) and every handle, without a bounds
check, an exception, or an error code: the binding is pure delegation with no
error branch. -/
theorem c7_no_validation :
    (∀ (v : RenderVector) (i : ℕ) (x : ℚ),
        render_vector_update v i x = RenderVector.update v i x) ∧
    render_vector_update (create_render_vector [1, 2, 3]) 10 7 =
      RenderVector.update (create_render_vector [1, 2, 3]) 10 7 :=
  ⟨fun _ _ _ => rfl, rfl⟩

/-- C8: Length invariant — construction from `n` numbers yields a vector of
length `n`, an (in-bounds) update never changes the length, and read-back
returns a sequence of the vector's length, hence of the construction input's
length. -/
theorem c8_length_invariant (data : List ℚ) (v : RenderVector) (i : ℕ) (x : ℚ)
    (_hi : i < v.values.length) :
    (create_render_vector data).values.length = data.length ∧
    (render_vector_update v i x).values.length = v.values.length ∧
    (render_vector_data v).length = v.values.length ∧
    (render_vector_data (create_render_vector data)).length = data.length := by
  refine ⟨rfl, ?_, rfl, rfl⟩
  simp [render_vector_update, RenderVector.update]

/-- Witness for C8 at `data = [1, 2, 3]`, `v = ⟨[1, 2]⟩`, `i = 0`, `x = 9`. -/
theorem c8_length_invariant_witness :
    0 < (RenderVector.ofData [1, 2]).values.length ∧
    ((create_render_vector [1, 2, 3]).values.length = [1, 2, 3].length ∧
     (render_vector_update (RenderVector.ofData [1, 2]) 0 9).values.length =
       (RenderVector.ofData [1, 2]).values.length ∧
     (render_vector_data (RenderVector.ofData [1, 2])).length =
       (RenderVector.ofData [1, 2]).values.length ∧
     (render_vector_data (create_render_vector [1, 2, 3])).length = [1, 2, 3].length) :=
  ⟨by decide, c8_length_invariant [1, 2, 3] (RenderVector.ofData [1, 2]) 0 9 (by decide)⟩

/-- C9: Exclusive ownership by the handle — construction returns an `XPtr`
whose delete-on-finalization flag is `true`, whose address was not previously
allocated (so the handle is the sole owner of a newly allocated object), whose
dereference in the new heap yields exactly the vector initialized from the
input data, and whose allocation leaves every other address's content
unchanged. -/
theorem c9_ownership (h : Heap) (data : List ℚ) (q : XPtr)
    (hq : q.addr ≠ (create_render_vector_st h data).1.addr) :
    (create_render_vector_st h data).1.deleteOnFinalize = true ∧
    h.deref (create_render_vector_st h data).1 = none ∧
    (create_render_vector_st h data).2.deref (create_render_vector_st h data).1 =
      some (RenderVector.ofData data) ∧
    (create_render_vector_st h data).2.deref q = h.deref q := by
  refine ⟨rfl, ?_, ?_, ?_⟩
  · exact List.getElem?_eq_none (Nat.le_refl _)
  · exact List.getElem?_concat_length _ _
  · show (h.objects ++ [RenderVector.ofData data])[q.addr]? = h.objects[q.addr]?
    rcases Nat.lt_or_ge q.addr h.objects.length with hlt | hge
    · exact List.getElem?_append_left hlt
    · have hne : h.objects.length ≠ q.addr := fun e => hq (e.symm)
      have h1 : (h.objects ++ [RenderVector.ofData data]).length ≤ q.addr := by
        simp only [List.length_append, List.length_singleton]
        omega
      rw [List.getElem?_eq_none h1, List.getElem?_eq_none hge]

/-- Witness for C9 at the empty heap, `data = [1, 2]`, `q = ⟨5, false⟩`. -/
theorem c9_ownership_witness :
    (XPtr.mk 5 false).addr ≠ (create_render_vector_st ⟨[]⟩ [1, 2]).1.addr ∧
    ((create_render_vector_st ⟨[]⟩ [1, 2]).1.deleteOnFinalize = true ∧
     Heap.deref ⟨[]⟩ (create_render_vector_st ⟨[]⟩ [1, 2]).1 = none ∧
     (create_render_vector_st ⟨[]⟩ [1, 2]).2.deref (create_render_vector_st ⟨[]⟩ [1, 2]).1 =
       some (RenderVector.ofData [1, 2]) ∧
     (create_render_vector_st ⟨[]⟩ [1, 2]).2.deref (XPtr.mk 5 false) =
       Heap.deref ⟨[]⟩ (XPtr.mk 5 false)) :=
  ⟨by decide, c9_ownership ⟨[]⟩ [1, 2] (XPtr.mk 5 false) (by decide)⟩

/-- C10: Independence of handles — two separate construct calls return handles
with distinct addresses, and an update through either handle leaves the
sequence read back through the other handle unchanged. -/
theorem c10_independence (h0 : Heap) (d1 d2 : List ℚ) (i k : ℕ) (x y : ℚ)
    (p1 : XPtr) (h1 : Heap) (p2 : XPtr) (h2 : Heap)
    (e1 : create_render_vector_st h0 d1 = (p1, h1))
    (e2 : create_render_vector_st h1 d2 = (p2, h2)) :
    p1.addr ≠ p2.addr ∧
    (render_vector_data_st (render_vector_update_st h2 p1 i x) p2).1 =
      (render_vector_data_st h2 p2).1 ∧
    (render_vector_data_st (render_vector_update_st h2 p2 k y) p1).1 =
      (render_vector_data_st h2 p1).1 := by
  simp only [create_render_vector_st] at e1 e2
  injection e1 with hp1 hh1
  subst hp1; subst hh1
  injection e2 with hp2 hh2
  subst hp2; subst hh2
  have hv1 : ((h0.objects ++ [RenderVector.ofData d1]) ++
      [RenderVector.ofData d2])[h0.objects.length]? = some (RenderVector.ofData d1) := by
    rw [List.getElem?_append_left (by simp)]
    exact List.getElem?_concat_length _ _
  have hv2 : ((h0.objects ++ [RenderVector.ofData d1]) ++
      [RenderVector.ofData d2])[(h0.objects ++ [RenderVector.ofData d1]).length]? =
      some (RenderVector.ofData d2) :=
    List.getElem?_concat_length _ _
  have hne : h0.objects.length ≠ (h0.objects ++ [RenderVector.ofData d1]).length := by
    simp
  refine ⟨hne, ?_, ?_⟩
  · simp only [render_vector_update_st, hv1, render_vector_data_st, Heap.deref]
    rw [List.getElem?_set_ne hne]
  · simp only [render_vector_update_st, hv2, render_vector_data_st, Heap.deref]
    rw [List.getElem?_set_ne (Ne.symm hne)]

/-- Witness for C10 at the empty heap, `d1 = [1]`, `d2 = [2]`,
`i = k = 0`, `x = 7`, `y = 8`. -/
theorem c10_independence_witness :
    (create_render_vector_st ⟨[]⟩ [1] = (XPtr.mk 0 true, ⟨[RenderVector.ofData [1]]⟩) ∧
     create_render_vector_st ⟨[RenderVector.ofData [1]]⟩ [2] =
       (XPtr.mk 1 true, ⟨[RenderVector.ofData [1], RenderVector.ofData [2]]⟩)) ∧
    ((XPtr.mk 0 true).addr ≠ (XPtr.mk 1 true).addr ∧
     (render_vector_data_st
        (render_vector_update_st ⟨[RenderVector.ofData [1], RenderVector.ofData [2]]⟩
          (XPtr.mk 0 true) 0 7)
        (XPtr.mk 1 true)).1 =
       (render_vector_data_st ⟨[RenderVector.ofData [1], RenderVector.ofData [2]]⟩
         (XPtr.mk 1 true)).1 ∧
     (render_vector_data_st
        (render_vector_update_st ⟨[RenderVector.ofData [1], RenderVector.ofData [2]]⟩
          (XPtr.mk 1 true) 0 8)
        (XPtr.mk 0 true)).1 =
       (render_vector_data_st ⟨[RenderVector.ofData [1], RenderVector.ofData [2]]⟩
         (XPtr.mk 0 true)).1) :=
  ⟨⟨by decide, by decide⟩,
   c10_independence ⟨[]⟩ [1] [2] 0 0 7 8 (XPtr.mk 0 true) ⟨[RenderVector.ofData [1]]⟩
     (XPtr.mk 1 true) ⟨[RenderVector.ofData [1], RenderVector.ofData [2]]⟩
     (by decide) (by decide)⟩
